import Mathlib

/-!
Verification of the goccy-bigquery-node example repository.

The development shallowly embeds the request-redirection adapter
(`createCustomAuthRequest` in the override-auth scripts), the per-script
environment preambles, the 409-recovery handlers and the exit-code behaviour
of the example scripts, and proves or refutes the frozen claims about them.

Strings are modelled as `List Char`; JavaScript regular-expression
replacement (non-global, leftmost match, greedy quantifier) is modelled by an
executable matcher specialised to the two patterns the source uses.
-/

namespace BqEmu

/-- The fixed suffix `.googleapis.com` of the cloud-API hostname patterns
`/https:\/\/[^\/]+\.googleapis\.com/` and `/http:\/\/[^\/]+\.googleapis\.com/`. -/
def gapi : List Char := ['.', 'g', 'o', 'o', 'g', 'l', 'e', 'a', 'p', 'i', 's', '.', 'c', 'o', 'm']

/-- The literal `https://`. -/
def httpsScheme : List Char := ['h', 't', 't', 'p', 's', ':', '/', '/']

/-- The literal `http://`. -/
def httpScheme : List Char := ['h', 't', 't', 'p', ':', '/', '/']

/-- The literal `https://127.0.0.1` tested by the downgrade step. -/
def httpsLoop1 : List Char := httpsScheme ++ ['1', '2', '7', '.', '0', '.', '0', '.', '1']

/-- The literal `https://localhost` tested by the downgrade step. -/
def httpsLoop2 : List Char := httpsScheme ++ ['l', 'o', 'c', 'a', 'l', 'h', 'o', 's', 't']

/-- Boolean string-prefix test (JavaScript `startsWith` on char lists). -/
def isStart : List Char → List Char → Bool
  | [], _ => true
  | _ :: _, [] => false
  | a :: as, b :: bs => if a = b then isStart as bs else false

example : isStart httpsScheme ("https://x".toList) = true := by decide

example : gapi = ".googleapis.com".toList := by decide

/-- One step of the greedy backtracking search for `[^\/]+\.googleapis\.com`:
the largest `k` with `1 ≤ k ≤ n` such that `.googleapis.com` starts at
position `k` of `run` (so `[^\/]+` consumes `k` characters). -/
def greedyKAux (run : List Char) : Nat → Option Nat
  | 0 => none
  | Nat.succ k => if isStart gapi (run.drop (k + 1)) then some (k + 1) else greedyKAux run k

/-- Length of the match of the regular expression
`scheme[^\/]+\.googleapis\.com` at the head of `s` (JavaScript semantics:
the greedy `[^\/]+` backtracks to the last `.googleapis.com` inside the
slash-free run following the scheme), or `none` if there is no match here. -/
def matchLen (scheme : List Char) (s : List Char) : Option Nat :=
  if isStart scheme s then
    let run := (s.drop scheme.length).takeWhile fun c => if c = '/' then false else true
    match greedyKAux run run.length with
    | some k => some (scheme.length + k + gapi.length)
    | none => none
  else none

/-- JavaScript `String.prototype.replace` with a non-global pattern: replace
the leftmost match (whose length at each candidate position `pat` reports)
by `repl`, or return the string unchanged when there is no match. -/
def replaceFirstBy (pat : List Char → Option Nat) (repl : List Char) : List Char → List Char
  | [] => []
  | c :: t =>
    match pat (c :: t) with
    | some n => repl ++ (c :: t).drop n
    | none => c :: replaceFirstBy pat repl t

/-- Does `pat` match anywhere in the string? -/
def hasMatch (pat : List Char → Option Nat) : List Char → Bool
  | [] => false
  | c :: t => (pat (c :: t)).isSome || hasMatch pat t

/-- The pattern of a fixed literal string (JavaScript `replace` with a string
argument replaces its first occurrence). -/
def litPat (lit : List Char) (s : List Char) : Option Nat :=
  if isStart lit s then some lit.length else none

/-- The first two `replace` calls of `makeAuthenticatedRequest`
(src/unnamed/part_001 lines 169-171): replace the first
`https://[^\/]+\.googleapis\.com` occurrence, then — on the result — the
first `http://[^\/]+\.googleapis\.com` occurrence, with the emulator host. -/
def preRewrite (emulatorHost uri : List Char) : List Char :=
  replaceFirstBy (matchLen httpScheme) emulatorHost
    (replaceFirstBy (matchLen httpsScheme) emulatorHost uri)

/-- The downgrade test of lines 174-175: does the uri start with
`https://127.0.0.1` or `https://localhost`? -/
def loopbackHttps (s : List Char) : Bool :=
  isStart httpsLoop1 s || isStart httpsLoop2 s

/-- The complete uri rewrite of `makeAuthenticatedRequest`
(src/unnamed/part_001 lines 167-177): redirect cloud-API hostnames to the
emulator host, then replace the first `https://` with `http://` whenever the
result starts with `https://127.0.0.1` or `https://localhost`. -/
def rewriteUri (emulatorHost uri : List Char) : List Char :=
  let u2 := preRewrite emulatorHost uri
  if loopbackHttps u2 then replaceFirstBy (litPat httpsScheme) httpScheme u2 else u2

/-- The default emulator base url `http://127.0.0.1:9050`. -/
def defaultEmu : List Char := "http://127.0.0.1:9050".toList

example :
    rewriteUri defaultEmu ("https://bigquery.googleapis.com/bigquery/v2/projects/p/jobs".toList)
      = defaultEmu ++ "/bigquery/v2/projects/p/jobs".toList := by decide

example :
    rewriteUri defaultEmu ("http://www.googleapis.com/discovery/v1".toList)
      = defaultEmu ++ "/discovery/v1".toList := by decide

example :
    rewriteUri ("https://localhost:9050".toList) ("https://bigquery.googleapis.com/x".toList)
      = "http://localhost:9050/x".toList := by decide

example :
    rewriteUri defaultEmu ("https://a.googleapis.com/p?u=http://b.googleapis.com".toList)
      = (defaultEmu ++ "/p?u=".toList) ++ defaultEmu := by decide

example : rewriteUri defaultEmu ("https://[::1]:9050/x".toList) = "https://[::1]:9050/x".toList := by
  decide

/-! ## The request adapter

`createCustomAuthRequest(emulatorHost)` (src/unnamed/part_001 lines 164-237
and src/override-auth-example/test.ts lines 25-85) returns an async function
`makeAuthenticatedRequest(reqOpts)`.  The embedding is parametric in the
type `J` of parsed JSON values and in the host primitive `JSON.parse`
(a function `jp : List Char → Option J`, `none` when parsing throws).  The
single `fetch` call is modelled by an oracle argument
`fetchResult : FetchOutcome`, and the function's observable behaviour — the
mutated request descriptor, the dispatched fetch call, the callback
invocations and the promise outcome — is returned as a record.
-/

/-- The request descriptor shape (`RequestOptions` in the source): target
uri, method, headers, optional body and optional completion callback.  The
callback itself is opaque; only its presence matters. -/
structure ReqOpts (J : Type) where
  uri : Option (List Char)
  method : Option (List Char)
  headers : List (List Char × List Char)
  body : Option J
  hasCallback : Bool
  deriving DecidableEq

/-- An HTTP response as seen through `node-fetch`: status code, body text
and response headers. -/
structure Response where
  status : Nat
  text : List Char
  headers : List (List Char × List Char)
  deriving DecidableEq

/-- Outcome of the `fetch` dispatch: a response, or a network-level
failure carrying an error message. -/
inductive FetchOutcome
  | ok : Response → FetchOutcome
  | netError : List Char → FetchOutcome
  deriving DecidableEq

/-- The response body after the `JSON.parse` attempt: a parsed value, or
the raw text when parsing failed. -/
inductive RespBody (J : Type)
  | json : J → RespBody J
  | text : List Char → RespBody J
  deriving DecidableEq

/-- The normalized result `{ statusCode, body, headers }` the adapter
returns to the SDK. -/
structure HttpResult (J : Type) where
  statusCode : Nat
  body : RespBody J
  headers : List (List Char × List Char)
  deriving DecidableEq

/-- A JavaScript `Error` as the adapter constructs it: a message, plus the
`response` property attached in the non-2xx branch. -/
structure JsError (J : Type) where
  message : List Char
  response : Option (HttpResult J)
  deriving DecidableEq

/-- One invocation of the descriptor's completion callback, recording the
three arguments `(error, body, fullResult)` (absent arguments are `none`). -/
structure CallbackCall (J : Type) where
  err : Option (JsError J)
  body : Option (RespBody J)
  res : Option (HttpResult J)
  deriving DecidableEq

/-- The arguments of the `fetch` dispatch: the (possibly rewritten) uri and
the `fetchOptions` record built from the descriptor. -/
structure FetchCall (J : Type) where
  uri : Option (List Char)
  method : List Char
  headers : List (List Char × List Char)
  body : Option J
  deriving DecidableEq

/-- The promise outcome of `makeAuthenticatedRequest`: resolution with the
normalized result, or rejection with an error message. -/
inductive ReqOutcome (J : Type)
  | resolved : HttpResult J → ReqOutcome J
  | rejected : List Char → ReqOutcome J
  deriving DecidableEq

/-- Everything observable about one call of the adapter. -/
structure AdapterRun (J : Type) where
  reqOptsAfter : ReqOpts J
  fetchCalls : List (FetchCall J)
  callbackCalls : List (CallbackCall J)
  outcome : ReqOutcome J
  deriving DecidableEq

/-- The default `GET` method. -/
def getMethod : List Char := "GET".toList

/-- The `Content-Type` header key. -/
def ctKey : List Char := "Content-Type".toList

/-- The default `application/json` content type. -/
def appJson : List Char := "application/json".toList

/-- JavaScript object-property assignment on an association list with unique
keys: overwrite the value of an existing key in place, or append a new key. -/
def objSet : List (List Char × List Char) → List Char → List Char →
    List (List Char × List Char)
  | [], k, v => [(k, v)]
  | p :: t, k, v => if p.1 = k then (k, v) :: t else p :: objSet t k v

/-- JavaScript object-property lookup. -/
def objGet : List (List Char × List Char) → List Char → Option (List Char)
  | [], _ => none
  | p :: t, k => if p.1 = k then some p.2 else objGet t k

/-- The headers object `{ 'Content-Type': 'application/json', ...reqOpts.headers }`
of the fetch options (lines 186-189): the default content type first, then
every caller-supplied header assigned over it. -/
def mergedHeaders (hs : List (List Char × List Char)) : List (List Char × List Char) :=
  hs.foldl (fun acc kv => objSet acc kv.1 kv.2) [(ctKey, appJson)]

/-- `response.ok` of the fetch API: status in the inclusive range 200-299. -/
def respOk (st : Nat) : Bool :=
  decide (200 ≤ st) && decide (st < 300)

/-- The message of the error built in the non-2xx branch (line 220). -/
def statusMessage (st : Nat) : List Char :=
  "Request failed with status ".toList ++ (Nat.repr st).toList

/-- Body normalization (lines 199-206): `JSON.parse` the response text,
falling back to the raw text when parsing fails. -/
def parseBody {J : Type} (jp : List Char → Option J) (t : List Char) : RespBody J :=
  match jp t with
  | some j => RespBody.json j
  | none => RespBody.text t

/-- Shared response handling of both adapter variants (lines 199-226): build
the normalized result and, when a callback is present, invoke it once —
`(null, body, result)` on `response.ok`, `(error, null, result)` otherwise. -/
def handleResponse {J : Type} (jp : List Char → Option J) (hasCb : Bool)
    (resp : Response) : HttpResult J × List (CallbackCall J) :=
  let rbody := parseBody jp resp.text
  let result : HttpResult J := ⟨resp.status, rbody, resp.headers⟩
  let calls :=
    if hasCb then
      if respOk resp.status then [⟨none, some rbody, some result⟩]
      else [⟨some ⟨statusMessage resp.status, some result⟩, none, some result⟩]
    else []
  (result, calls)

/-- The full adapter of src/unnamed/part_001 lines 165-236: rewrite the uri
in place, dispatch one fetch, normalize the response, serve the callback
convention, and — in the surrounding try/catch — invoke the callback with a
network error and re-throw it. -/
def makeAuthenticatedRequest {J : Type} (jp : List Char → Option J)
    (emulatorHost : List Char) (reqOpts : ReqOpts J) (fetchResult : FetchOutcome) :
    AdapterRun J :=
  let after : ReqOpts J := { reqOpts with uri := reqOpts.uri.map (rewriteUri emulatorHost) }
  let call : FetchCall J :=
    ⟨after.uri, after.method.getD getMethod, mergedHeaders after.headers, after.body⟩
  match fetchResult with
  | FetchOutcome.ok resp =>
    let rc := handleResponse jp after.hasCallback resp
    ⟨after, [call], rc.2, ReqOutcome.resolved rc.1⟩
  | FetchOutcome.netError msg =>
    ⟨after, [call],
      if after.hasCallback then [⟨some ⟨msg, none⟩, none, none⟩] else [],
      ReqOutcome.rejected msg⟩

/-- The simplified adapter of src/override-auth-example/test.ts lines 26-84:
identical to the full one except that the fetch is not wrapped in a
try/catch, so a network failure rejects the promise without any callback
invocation. -/
def makeAuthenticatedRequestSimple {J : Type} (jp : List Char → Option J)
    (emulatorHost : List Char) (reqOpts : ReqOpts J) (fetchResult : FetchOutcome) :
    AdapterRun J :=
  let after : ReqOpts J := { reqOpts with uri := reqOpts.uri.map (rewriteUri emulatorHost) }
  let call : FetchCall J :=
    ⟨after.uri, after.method.getD getMethod, mergedHeaders after.headers, after.body⟩
  match fetchResult with
  | FetchOutcome.ok resp =>
    let rc := handleResponse jp after.hasCallback resp
    ⟨after, [call], rc.2, ReqOutcome.resolved rc.1⟩
  | FetchOutcome.netError msg =>
    ⟨after, [call], [], ReqOutcome.rejected msg⟩

/-! ## The example scripts

Models of the scripts' error recovery, environment preambles and exit
codes.  Errors thrown by SDK calls are modelled by `BqError` (the fields the
scripts inspect: the numeric `code` and the `message`, both of which may be
absent); the outcome of one awaited SDK call is a `Res`.
-/

/-- The fields of a thrown SDK error that the scripts inspect. -/
structure BqError where
  code : Option Int
  message : Option (List Char)
  deriving DecidableEq

/-- Outcome of one awaited SDK call inside a script. -/
inductive Res (α : Type)
  | ok : α → Res α
  | err : BqError → Res α
  deriving DecidableEq

/-- Substring test (JavaScript `String.prototype.includes`). -/
def containsLit (lit : List Char) : List Char → Bool
  | [] => lit.isEmpty
  | c :: t => isStart lit (c :: t) || containsLit lit t

/-- The literal `already`. -/
def alreadyLit : List Char := "already".toList

/-- The creation recovery of src/env-variable-example/index.ts lines 53-59
and 70-76 and of the override index script (src/unnamed/part_001 lines
265-271 and 286-292): a rejection with `err.code === 409` is turned into a
resolved reference to the existing resource; every other rejection is
re-thrown. -/
def recover409 {α : Type} (attempt : Res α) (existing : α) : Res α :=
  match attempt with
  | Res.ok v => Res.ok v
  | Res.err e => if e.code = some 409 then Res.ok existing else Res.err e

/-- The test `err.message?.includes('already')` of the simplified script. -/
def msgHasAlready (e : BqError) : Bool :=
  match e.message with
  | some m => containsLit alreadyLit m
  | none => false

/-- The creation recovery of the simplified script (src/unnamed/part_001
lines 53-62 and 75-84): recover when `err.code === 409` or when
`err.message?.includes('already')`. -/
def recoverAlready {α : Type} (attempt : Res α) (existing : α) : Res α :=
  match attempt with
  | Res.ok v => Res.ok v
  | Res.err e =>
    if e.code = some 409 ∨ msgHasAlready e = true then Res.ok existing
    else Res.err e

/-- Sequencing of awaited script steps: the first rejection aborts the
remainder and propagates to the script's top-level catch. -/
def runSteps : List (Res Unit) → Res Unit
  | [] => Res.ok ()
  | s :: rest =>
    match s with
    | Res.ok _ => runSteps rest
    | Res.err e => Res.err e

/-- Exit code of a script whose top-level catch calls `process.exit(1)`:
1 when an error reached the catch, 0 when the body ran to completion. -/
def scriptExit (r : Res Unit) : Nat :=
  match r with
  | Res.ok _ => 0
  | Res.err _ => 1

/-- Exit of src/env-variable-example/index.ts `main`: dataset and table
creation (each with the 409 recovery), then the remaining insert/query
steps; any unrecovered rejection reaches the catch at lines 119-124, which
exits 1. -/
def envVarIndexExit (cd ct : Res Unit) (rest : List (Res Unit)) : Nat :=
  scriptExit (runSteps (recover409 cd () :: recover409 ct () :: rest))

/-- Exit of the override index script `main` (src/unnamed/part_001 lines
239-374): same structure as the env-variable index script. -/
def overrideIndexExit (cd ct : Res Unit) (rest : List (Res Unit)) : Nat :=
  scriptExit (runSteps (recover409 cd () :: recover409 ct () :: rest))

/-- Exit of the simplified index script `main` (src/unnamed/part_001 lines
27-121): creation steps use the wider `already` recovery; any unrecovered
rejection reaches the catch at lines 115-120, which exits 1. -/
def simplifiedIndexExit (cd ct : Res Unit) (rest : List (Res Unit)) : Nat :=
  scriptExit (runSteps (recoverAlready cd () :: recoverAlready ct () :: rest))

/-- Exit of src/env-variable-example/test.ts `testConnection`: the query
step either rejects, or resolves telling whether any rows came back; empty
results throw, and the catch at lines 63-74 exits 1. -/
def envVarTestExit (q : Res Bool) : Nat :=
  match q with
  | Res.ok true => 0
  | Res.ok false => 1
  | Res.err _ => 1

/-- Exit of src/override-auth-example/test.ts `testConnection` (lines
87-133): same structure as the env-variable test script. -/
def overrideTestExit (q : Res Bool) : Nat :=
  match q with
  | Res.ok true => 0
  | Res.ok false => 1
  | Res.err _ => 1

/-- Observable result of src/unnamed/part_000 `testEmulator` (lines 15-78):
each of the two query attempts is caught and logged individually, the outer
catch only logs, and no `process.exit` call exists, so the process always
ends with code 0. -/
structure Part000Trace where
  attempt1Ok : Bool
  attempt2Ok : Bool
  exitCode : Nat
  deriving DecidableEq

/-- Run of src/unnamed/part_000 `testEmulator` on the outcomes of its two
query attempts. -/
def part000Run (a1 a2 : Res Unit) : Part000Trace :=
  { attempt1Ok := match a1 with | Res.ok _ => true | Res.err _ => false
    attempt2Ok := match a2 with | Res.ok _ => true | Res.err _ => false
    exitCode := 0 }

/-! ## Environment preambles

The environment variables the scripts read or write.  `dotenv.config()`
loads a `.env` file and never removes variables; it is modelled as an
arbitrary function `d : Env → Env` supplied to the preamble.
-/

/-- The process environment variables relevant to the scripts. -/
structure Env where
  googleAppCreds : Option (List Char)
  googleCloudProject : Option (List Char)
  gcloudProject : Option (List Char)
  bigqueryEmulatorHost : Option (List Char)
  emulatorHost : Option (List Char)
  deriving DecidableEq

/-- The three `delete process.env.*` statements clearing credentials
(e.g. src/env-variable-example/index.ts lines 9-11). -/
def clearAuthVars (e : Env) : Env :=
  { e with googleAppCreds := none, googleCloudProject := none, gcloudProject := none }

/-- The default emulator host string of the scripts. -/
def defaultEmuStr : List Char := "http://127.0.0.1:9050".toList

/-- The emulator host of src/unnamed/part_000 line 24. -/
def localhostEmuStr : List Char := "http://localhost:9050".toList

/-- Preamble of src/env-variable-example/index.ts (lines 6-15): dotenv,
clear the credential variables, then set `BIGQUERY_EMULATOR_HOST` to its
current value or the default. -/
def envVarIndexPre (d : Env → Env) (e : Env) : Env :=
  let e1 := clearAuthVars (d e)
  { e1 with bigqueryEmulatorHost := some (e1.bigqueryEmulatorHost.getD defaultEmuStr) }

/-- Preamble of src/env-variable-example/test.ts (lines 5-12): identical
sequence. -/
def envVarTestPre (d : Env → Env) (e : Env) : Env :=
  let e1 := clearAuthVars (d e)
  { e1 with bigqueryEmulatorHost := some (e1.bigqueryEmulatorHost.getD defaultEmuStr) }

/-- Preamble of the simplified index script (src/unnamed/part_001 lines
6-18): dotenv, clear the credential variables, then set
`BIGQUERY_EMULATOR_HOST` to `EMULATOR_HOST` (the `EMULATOR_HOST` variable or
the default). -/
def simplifiedIndexPre (d : Env → Env) (e : Env) : Env :=
  let e1 := clearAuthVars (d e)
  { e1 with bigqueryEmulatorHost := some (e1.emulatorHost.getD defaultEmuStr) }

/-- Preamble of src/unnamed/part_000 (`testEmulator` lines 19-24, before any
client call): clear the credential variables, then set
`BIGQUERY_EMULATOR_HOST` to the localhost url. -/
def part000Pre (e : Env) : Env :=
  let e1 := clearAuthVars e
  { e1 with bigqueryEmulatorHost := some localhostEmuStr }

/-- Preamble of the override index script (src/unnamed/part_001 lines
130-134): only `dotenv.config()`; no environment variable is deleted or
set. -/
def overrideIndexPre (d : Env → Env) (e : Env) : Env := d e

/-- Preamble of src/override-auth-example/test.ts (lines 6-9): only
`dotenv.config()`; no environment variable is deleted or set. -/
def overrideTestPre (d : Env → Env) (e : Env) : Env := d e

/-! ## Lemmas about the string machinery
-/

lemma isStart_append (p t : List Char) : isStart p (p ++ t) = true := by
  induction p with
  | nil => rfl
  | cons c ps ih => simp [isStart, ih]

lemma isStart_le (p s : List Char) (h : isStart p s = true) : p.length ≤ s.length := by
  induction p generalizing s with
  | nil => simp
  | cons c ps ih =>
    cases s with
    | nil => simp [isStart] at h
    | cons d ds =>
      by_cases hcd : c = d
      · subst hcd
        have h' : isStart ps ds = true := by simpa [isStart] using h
        simpa [List.length_cons] using Nat.succ_le_succ (ih ds h')
      · simp [isStart, hcd] at h

lemma isStart_drop (p s : List Char) (h : isStart p s = true) :
    s = p ++ s.drop p.length := by
  induction p generalizing s with
  | nil => simp
  | cons c ps ih =>
    cases s with
    | nil => simp [isStart] at h
    | cons d ds =>
      by_cases hcd : c = d
      · subst hcd
        have h' : isStart ps ds = true := by simpa [isStart] using h
        simpa [List.cons_append, List.length_cons, List.drop_succ_cons] using
          congrArg (List.cons c) (ih ds h')
      · simp [isStart, hcd] at h

lemma isStart_trans (p q s : List Char) (h1 : isStart p q = true)
    (h2 : isStart q s = true) : isStart p s = true := by
  induction p generalizing q s with
  | nil => rfl
  | cons c ps ih =>
    cases q with
    | nil => simp [isStart] at h1
    | cons d qs =>
      cases s with
      | nil => simp [isStart] at h2
      | cons e ss =>
        by_cases hcd : c = d
        · subst hcd
          have h1' : isStart ps qs = true := by simpa [isStart] using h1
          by_cases hde : c = e
          · subst hde
            have h2' : isStart qs ss = true := by simpa [isStart] using h2
            simpa [isStart] using ih qs ss h1' h2'
          · simp [isStart, hde] at h2
        · simp [isStart, hcd] at h1

lemma dropAppend (a b : List Char) : (a ++ b).drop a.length = b := by
  induction a with
  | nil => rfl
  | cons c t ih =>
    rw [List.cons_append, List.length_cons, List.drop_succ_cons]
    exact ih

lemma dropGe (a : List Char) : ∀ (b : List Char) (j : Nat), a.length ≤ j →
    (a ++ b).drop j = b.drop (j - a.length) := by
  induction a with
  | nil => intro b j _; simp
  | cons c t ih =>
    intro b j h
    cases j with
    | zero => simp [List.length_cons] at h
    | succ j' =>
      have h' : t.length ≤ j' := by simpa [List.length_cons, Nat.succ_le_succ_iff] using h
      simp only [List.cons_append, List.drop_succ_cons, List.length_cons, Nat.succ_sub_succ]
      exact ih b j' h'

lemma takeWhileAll (p : Char → Bool) (a : List Char) : ∀ (b : List Char),
    (∀ c ∈ a, p c = true) → (a ++ b).takeWhile p = a ++ b.takeWhile p := by
  induction a with
  | nil => intro b _; rfl
  | cons c t ih =>
    intro b h
    have hc : p c = true := h c (by simp)
    simp [List.takeWhile_cons, hc, ih b fun x hx => h x (by simp [hx])]

lemma takeWhileSlash (rest : List Char) (h : rest.head? = some '/') :
    (rest.takeWhile fun c => if c = '/' then false else true) = [] := by
  cases rest with
  | nil => simp at h
  | cons c t =>
    have hc : c = '/' := by simpa using h
    subst hc
    simp [List.takeWhile_cons]

lemma greedyKAux_spec (run : List Char) (m : Nat) (hm1 : 1 ≤ m)
    (hm : isStart gapi (run.drop m) = true) :
    ∀ n, m ≤ n → (∀ j, m < j → j ≤ n → isStart gapi (run.drop j) = false) →
    greedyKAux run n = some m := by
  intro n
  induction n with
  | zero => intro hmn _; omega
  | succ k ih =>
    intro hmn hup
    by_cases hmk : m = k + 1
    · subst hmk
      simp [greedyKAux, hm]
    · have hfail : isStart gapi (run.drop (k + 1)) = false := hup (k + 1) (by omega) (by omega)
      simp only [greedyKAux, hfail, Bool.false_eq_true, if_false]
      exact ih (by omega) fun j hj1 hj2 => hup j hj1 (by omega)

lemma matchLen_head (scheme host rest : List Char) (hhost : host ≠ [])
    (hslash : ∀ c ∈ host, (if c = '/' then false else true) = true)
    (hrest : rest = [] ∨ rest.head? = some '/') :
    matchLen scheme (scheme ++ (host ++ (gapi ++ rest)))
      = some (scheme.length + host.length + gapi.length) := by
  have h1 : isStart scheme (scheme ++ (host ++ (gapi ++ rest))) = true := isStart_append _ _
  have hdrop : (scheme ++ (host ++ (gapi ++ rest))).drop scheme.length
      = host ++ (gapi ++ rest) := dropAppend _ _
  have hgapi : ∀ c ∈ gapi, (if c = '/' then false else true) = true := by decide
  have hrun : ((host ++ (gapi ++ rest)).takeWhile fun c => if c = '/' then false else true)
      = host ++ gapi := by
    rw [takeWhileAll _ host _ hslash, takeWhileAll _ gapi _ hgapi]
    rcases hrest with h | h
    · subst h; simp
    · rw [takeWhileSlash rest h, List.append_nil]
  have hlen : (host ++ gapi).length = host.length + gapi.length := List.length_append _ _
  have hm : isStart gapi ((host ++ gapi).drop host.length) = true := by
    rw [dropAppend]
    have := isStart_append gapi []
    rwa [List.append_nil] at this
  have hup : ∀ j, host.length < j → j ≤ (host ++ gapi).length →
      isStart gapi ((host ++ gapi).drop j) = false := by
    intro j hj1 hj2
    rw [dropGe host gapi j (Nat.le_of_lt hj1)]
    cases hx : isStart gapi (gapi.drop (j - host.length)) with
    | false => rfl
    | true =>
      exfalso
      have hle := isStart_le _ _ hx
      rw [List.length_drop] at hle
      rw [hlen] at hj2
      omega
  have hm1 : 1 ≤ host.length := List.length_pos.mpr hhost
  have hg : greedyKAux (host ++ gapi) (host ++ gapi).length = some host.length :=
    greedyKAux_spec _ _ hm1 hm _ (by omega) hup
  rw [matchLen]
  rw [if_pos h1]
  simp only [hdrop, hrun, hg]

lemma replaceHead (pat : List Char → Option Nat) (repl : List Char) (s : List Char)
    (n : Nat) (hs : s ≠ []) (h : pat s = some n) :
    replaceFirstBy pat repl s = repl ++ s.drop n := by
  cases s with
  | nil => exact absurd rfl hs
  | cons c t => simp [replaceFirstBy, h]

lemma replaceNone (pat : List Char → Option Nat) (repl : List Char) (s : List Char)
    (h : hasMatch pat s = false) : replaceFirstBy pat repl s = s := by
  induction s with
  | nil => rfl
  | cons c t ih =>
    cases hx : pat (c :: t) with
    | some n => simp [hasMatch, hx] at h
    | none =>
      have h2 : hasMatch pat t = false := by simpa [hasMatch, hx] using h
      simp [replaceFirstBy, hx, ih h2]

/-! ## Claim C1
-/

/-- Claim C1, counterexample: the uri
`https://a.googleapis.com/p?u=http://b.googleapis.com` matches the cloud-API
hostname pattern, but because the second `replace` call also rewrites the
`http://…googleapis.com` occurrence sitting in the query string, the path
and query portion is not unchanged: the query parameter is rewritten to the
emulator base url as well, so the claim as stated is false. -/
theorem c1_counterexample :
    rewriteUri defaultEmu ("https://a.googleapis.com/p?u=http://b.googleapis.com".toList)
        = (defaultEmu ++ "/p?u=".toList) ++ defaultEmu ∧
    rewriteUri defaultEmu ("https://a.googleapis.com/p?u=http://b.googleapis.com".toList)
        ≠ defaultEmu ++ "/p?u=http://b.googleapis.com".toList := by
  constructor
  · decide
  · decide

/-- Claim C1 (amended): for a request descriptor whose uri is
`scheme://host.googleapis.com` followed by the path/query portion (host
non-empty and slash-free, the remainder empty or starting with `/`),
provided the uri contains no further occurrence of the other scheme's
hostname pattern after rewriting and the emulator base url does not trigger
the loopback downgrade, the request function rewrites the uri so that its
scheme-and-host prefix is exactly the configured emulator base url and the
path/query portion is unchanged; the mutated descriptor carries that uri. -/
theorem c1_uri_redirect {J : Type} (jp : List Char → Option J)
    (emu scheme host rest : List Char) (opts : ReqOpts J) (fr : FetchOutcome)
    (hhost : host ≠ []) (hslash : ('/' : Char) ∉ host)
    (hrest : rest = [] ∨ rest.head? = some '/')
    (hcase : (scheme = httpsScheme ∧ hasMatch (matchLen httpScheme) (emu ++ rest) = false)
        ∨ (scheme = httpScheme ∧
            hasMatch (matchLen httpsScheme) (scheme ++ (host ++ (gapi ++ rest))) = false))
    (hdown : loopbackHttps (emu ++ rest) = false)
    (huri : opts.uri = some (scheme ++ (host ++ (gapi ++ rest)))) :
    rewriteUri emu (scheme ++ (host ++ (gapi ++ rest))) = emu ++ rest ∧
    (makeAuthenticatedRequest jp emu opts fr).reqOptsAfter.uri = some (emu ++ rest) := by
  have hslash' : ∀ c ∈ host, (if c = '/' then false else true) = true := by
    intro c hc
    by_cases h : c = '/'
    · exact absurd (h ▸ hc) hslash
    · simp [h]
  have hne : scheme ++ (host ++ (gapi ++ rest)) ≠ [] := by
    rcases hcase with ⟨hs, _⟩ | ⟨hs, _⟩ <;> subst hs <;> simp [httpsScheme, httpScheme]
  have hmAt : matchLen scheme (scheme ++ (host ++ (gapi ++ rest)))
      = some (scheme.length + host.length + gapi.length) :=
    matchLen_head _ _ _ hhost hslash' hrest
  have hdropL : (scheme ++ (host ++ (gapi ++ rest))).drop
      (scheme.length + host.length + gapi.length) = rest := by
    have hassoc : scheme ++ (host ++ (gapi ++ rest)) = ((scheme ++ host) ++ gapi) ++ rest := by
      simp [List.append_assoc]
    rw [hassoc]
    have hl : ((scheme ++ host) ++ gapi).length = scheme.length + host.length + gapi.length := by
      simp only [List.length_append]
    rw [← hl, dropAppend]
  have main : rewriteUri emu (scheme ++ (host ++ (gapi ++ rest))) = emu ++ rest := by
    rcases hcase with ⟨hs, hnomatch⟩ | ⟨hs, hnomatch⟩
    · subst hs
      have hu1 : replaceFirstBy (matchLen httpsScheme) emu
          (httpsScheme ++ (host ++ (gapi ++ rest))) = emu ++ rest := by
        rw [replaceHead _ _ _ _ hne hmAt, hdropL]
      have hpre : preRewrite emu (httpsScheme ++ (host ++ (gapi ++ rest))) = emu ++ rest := by
        rw [preRewrite, hu1]
        exact replaceNone _ _ _ hnomatch
      simp [rewriteUri, hpre, hdown]
    · subst hs
      have hu1 : replaceFirstBy (matchLen httpsScheme) emu
          (httpScheme ++ (host ++ (gapi ++ rest)))
          = httpScheme ++ (host ++ (gapi ++ rest)) := replaceNone _ _ _ hnomatch
      have hpre : preRewrite emu (httpScheme ++ (host ++ (gapi ++ rest))) = emu ++ rest := by
        rw [preRewrite, hu1, replaceHead _ _ _ _ hne hmAt, hdropL]
      simp [rewriteUri, hpre, hdown]
  refine ⟨main, ?_⟩
  cases fr <;> simp [makeAuthenticatedRequest, huri, main]

/-- Claim C1, witness: the amended theorem applied to the secure-scheme
BigQuery jobs uri and the default emulator base url. -/
theorem c1_witness :
    (("bigquery".toList : List Char) ≠ [] ∧
      hasMatch (matchLen httpScheme) (defaultEmu ++ "/bigquery/v2/jobs".toList) = false ∧
      loopbackHttps (defaultEmu ++ "/bigquery/v2/jobs".toList) = false) ∧
    rewriteUri defaultEmu
        (httpsScheme ++ ("bigquery".toList ++ (gapi ++ "/bigquery/v2/jobs".toList)))
      = defaultEmu ++ "/bigquery/v2/jobs".toList ∧
    (makeAuthenticatedRequest (fun _ => (none : Option Unit)) defaultEmu
        ⟨some (httpsScheme ++ ("bigquery".toList ++ (gapi ++ "/bigquery/v2/jobs".toList))),
          none, [], none, false⟩
        (FetchOutcome.ok ⟨200, [], []⟩)).reqOptsAfter.uri
      = some (defaultEmu ++ "/bigquery/v2/jobs".toList) := by
  have h := c1_uri_redirect (fun _ => (none : Option Unit)) defaultEmu httpsScheme
    ("bigquery".toList) ("/bigquery/v2/jobs".toList)
    ⟨some (httpsScheme ++ ("bigquery".toList ++ (gapi ++ "/bigquery/v2/jobs".toList))),
      none, [], none, false⟩
    (FetchOutcome.ok ⟨200, [], []⟩)
    (by decide) (by decide) (by decide) (Or.inl ⟨rfl, by decide⟩) (by decide) rfl
  exact ⟨⟨by decide, by decide, by decide⟩, h.1, h.2⟩

/-! ## Claim C2
-/

/-- Host of a uri, following the claim's reading: the authority component
after the scheme up to the first `/`, with a bracketed IPv6 literal kept
whole and any port stripped. -/
def hostOf (u : List Char) : List Char :=
  let auth :=
    if isStart httpsScheme u then
      (u.drop httpsScheme.length).takeWhile fun c => if c = '/' then false else true
    else if isStart httpScheme u then
      (u.drop httpScheme.length).takeWhile fun c => if c = '/' then false else true
    else []
  if isStart ['['] auth then
    (auth.takeWhile fun c => if c = ']' then false else true) ++ [']']
  else auth.takeWhile fun c => if c = ':' then false else true

/-- Loopback addresses, following the claim's words ("a loopback address"):
the IPv4 loopback, the loopback hostname and the IPv6 loopback. -/
def specLoopbackHosts : List (List Char) :=
  ["127.0.0.1".toList, "localhost".toList, "[::1]".toList]

/-- Claim C2, counterexample: for a descriptor whose uri is
`https://[::1]:9050/x`, the rewritten uri's host is the IPv6 loopback
address, yet the adapter's downgrade only checks the textual prefixes
`https://127.0.0.1` and `https://localhost`, so the dispatched uri keeps the
secure scheme — the claim as stated is false. -/
theorem c2_counterexample :
    rewriteUri defaultEmu ("https://[::1]:9050/x".toList) = "https://[::1]:9050/x".toList ∧
    hostOf (rewriteUri defaultEmu ("https://[::1]:9050/x".toList)) ∈ specLoopbackHosts ∧
    isStart httpsScheme (rewriteUri defaultEmu ("https://[::1]:9050/x".toList)) = true := by
  refine ⟨by decide, by decide, by decide⟩

/-- Claim C2 (amended): the scheme downgrade applies exactly to rewritten
uris that begin with the literal prefixes `https://127.0.0.1` or
`https://localhost`; whenever the rewritten uri begins with one of them the
uri handed to the HTTP client has the insecure scheme, and no dispatched
uri ever begins with either secure-loopback prefix.  The dispatched fetch
uses exactly the rewritten uri. -/
theorem c2_loopback_downgrade {J : Type} (jp : List Char → Option J)
    (emu u : List Char) (opts : ReqOpts J) (fr : FetchOutcome)
    (huri : opts.uri = some u) :
    (loopbackHttps (preRewrite emu u) = true →
      isStart httpScheme (rewriteUri emu u) = true) ∧
    loopbackHttps (rewriteUri emu u) = false ∧
    (makeAuthenticatedRequest jp emu opts fr).fetchCalls
      = [⟨some (rewriteUri emu u), opts.method.getD getMethod,
          mergedHeaders opts.headers, opts.body⟩] := by
  have hfc : (makeAuthenticatedRequest jp emu opts fr).fetchCalls
      = [⟨some (rewriteUri emu u), opts.method.getD getMethod,
          mergedHeaders opts.headers, opts.body⟩] := by
    cases fr <;> simp [makeAuthenticatedRequest, huri]
  cases h2 : loopbackHttps (preRewrite emu u) with
  | false =>
    have hres : rewriteUri emu u = preRewrite emu u := by
      simp [rewriteUri, h2]
    refine ⟨fun hcontra => absurd hcontra Bool.false_ne_true, ?_, hfc⟩
    rw [hres]
    exact h2
  | true =>
    have hstart : isStart httpsScheme (preRewrite emu u) = true := by
      have h2' : isStart httpsLoop1 (preRewrite emu u) = true
          ∨ isStart httpsLoop2 (preRewrite emu u) = true := by
        simpa [loopbackHttps] using h2
      rcases h2' with h | h
      · exact isStart_trans _ _ _ (by decide) h
      · exact isStart_trans _ _ _ (by decide) h
    have hnil : preRewrite emu u ≠ [] := by
      intro hx
      rw [hx] at hstart
      simp [isStart, httpsScheme] at hstart
    have hlit : litPat httpsScheme (preRewrite emu u) = some httpsScheme.length := by
      simp [litPat, hstart]
    have hres : rewriteUri emu u
        = httpScheme ++ (preRewrite emu u).drop httpsScheme.length := by
      simp only [rewriteUri, h2, if_true]
      exact replaceHead _ _ _ _ hnil hlit
    refine ⟨fun _ => ?_, ?_, hfc⟩
    · rw [hres]
      exact isStart_append _ _
    · rw [hres]
      have hl1 : ∀ w, isStart httpsLoop1 (httpScheme ++ w) = false := fun w => rfl
      have hl2 : ∀ w, isStart httpsLoop2 (httpScheme ++ w) = false := fun w => rfl
      simp [loopbackHttps, hl1, hl2]

/-- Claim C2, witness: the amended theorem applied to a secure cloud-API
uri under an emulator base url of the form `https://localhost:9050`, where
the downgrade fires. -/
theorem c2_witness :
    (loopbackHttps (preRewrite ("https://localhost:9050".toList)
        ("https://bigquery.googleapis.com/x".toList)) = true →
      isStart httpScheme (rewriteUri ("https://localhost:9050".toList)
        ("https://bigquery.googleapis.com/x".toList)) = true) ∧
    loopbackHttps (rewriteUri ("https://localhost:9050".toList)
      ("https://bigquery.googleapis.com/x".toList)) = false ∧
    (makeAuthenticatedRequest (fun _ => (none : Option Unit))
        ("https://localhost:9050".toList)
        ⟨some ("https://bigquery.googleapis.com/x".toList), none, [], none, false⟩
        (FetchOutcome.ok ⟨200, [], []⟩)).fetchCalls
      = [⟨some (rewriteUri ("https://localhost:9050".toList)
            ("https://bigquery.googleapis.com/x".toList)),
          (none : Option (List Char)).getD getMethod, mergedHeaders [], none⟩] :=
  c2_loopback_downgrade (fun _ => (none : Option Unit))
    ("https://localhost:9050".toList) ("https://bigquery.googleapis.com/x".toList)
    ⟨some ("https://bigquery.googleapis.com/x".toList), none, [], none, false⟩
    (FetchOutcome.ok ⟨200, [], []⟩) rfl

/-! ## Claims C3 and C4
-/

/-- Claim C3 (confirmed): when the descriptor carries a completion callback
and the response status is not 2xx, both adapter variants invoke the
callback exactly once, with a non-null error that carries the status
message and the normalized result, and the returned promise resolves with
the normalized result — it is not rejected with that error, so the error is
never signalled a second time as an unhandled rejection. -/
theorem c3_callback_once {J : Type} (jp : List Char → Option J) (emu : List Char)
    (opts : ReqOpts J) (resp : Response)
    (hcb : opts.hasCallback = true) (hst : respOk resp.status = false) :
    (makeAuthenticatedRequest jp emu opts (FetchOutcome.ok resp)).callbackCalls
      = [⟨some ⟨statusMessage resp.status,
            some ⟨resp.status, parseBody jp resp.text, resp.headers⟩⟩,
          none, some ⟨resp.status, parseBody jp resp.text, resp.headers⟩⟩] ∧
    (makeAuthenticatedRequest jp emu opts (FetchOutcome.ok resp)).outcome
      = ReqOutcome.resolved ⟨resp.status, parseBody jp resp.text, resp.headers⟩ ∧
    (makeAuthenticatedRequestSimple jp emu opts (FetchOutcome.ok resp)).callbackCalls
      = [⟨some ⟨statusMessage resp.status,
            some ⟨resp.status, parseBody jp resp.text, resp.headers⟩⟩,
          none, some ⟨resp.status, parseBody jp resp.text, resp.headers⟩⟩] ∧
    (makeAuthenticatedRequestSimple jp emu opts (FetchOutcome.ok resp)).outcome
      = ReqOutcome.resolved ⟨resp.status, parseBody jp resp.text, resp.headers⟩ := by
  refine ⟨?_, ?_, ?_, ?_⟩ <;>
    simp [makeAuthenticatedRequest, makeAuthenticatedRequestSimple, handleResponse, hcb, hst]

/-- Claim C3, witness: the theorem applied to a 404 response with callback
present. -/
theorem c3_witness :
    ((⟨some ("http://127.0.0.1:9050/x".toList), some ("POST".toList), [], none, true⟩ :
        ReqOpts Unit).hasCallback = true ∧ respOk 404 = false) ∧
    (makeAuthenticatedRequest (fun _ => (none : Option Unit)) defaultEmu
        ⟨some ("http://127.0.0.1:9050/x".toList), some ("POST".toList), [], none, true⟩
        (FetchOutcome.ok ⟨404, "nf".toList, []⟩)).callbackCalls
      = [⟨some ⟨statusMessage 404,
            some ⟨404, parseBody (fun _ => (none : Option Unit)) ("nf".toList), []⟩⟩,
          none, some ⟨404, parseBody (fun _ => (none : Option Unit)) ("nf".toList), []⟩⟩] ∧
    (makeAuthenticatedRequest (fun _ => (none : Option Unit)) defaultEmu
        ⟨some ("http://127.0.0.1:9050/x".toList), some ("POST".toList), [], none, true⟩
        (FetchOutcome.ok ⟨404, "nf".toList, []⟩)).outcome
      = ReqOutcome.resolved ⟨404, parseBody (fun _ => (none : Option Unit)) ("nf".toList), []⟩ := by
  have h := c3_callback_once (fun _ => (none : Option Unit)) defaultEmu
    ⟨some ("http://127.0.0.1:9050/x".toList), some ("POST".toList), [], none, true⟩
    ⟨404, "nf".toList, []⟩ rfl (by decide)
  exact ⟨⟨rfl, by decide⟩, h.1, h.2.1⟩

/-- Claim C4 (confirmed): when the response body text is not parseable as
JSON, both adapter variants do not throw from the parsing step — the
promise resolves with a result whose body field is the raw response
text. -/
theorem c4_raw_text {J : Type} (jp : List Char → Option J) (emu : List Char)
    (opts : ReqOpts J) (resp : Response) (hparse : jp resp.text = none) :
    (makeAuthenticatedRequest jp emu opts (FetchOutcome.ok resp)).outcome
      = ReqOutcome.resolved ⟨resp.status, RespBody.text resp.text, resp.headers⟩ ∧
    (makeAuthenticatedRequestSimple jp emu opts (FetchOutcome.ok resp)).outcome
      = ReqOutcome.resolved ⟨resp.status, RespBody.text resp.text, resp.headers⟩ := by
  refine ⟨?_, ?_⟩ <;>
    simp [makeAuthenticatedRequest, makeAuthenticatedRequestSimple, handleResponse,
      parseBody, hparse]

/-- Claim C4, witness: the theorem applied to a plain-text discovery
response under a parser that rejects the text. -/
theorem c4_witness :
    ((fun _ => (none : Option Unit)) ("plain text body".toList) = none) ∧
    (makeAuthenticatedRequest (fun _ => (none : Option Unit)) defaultEmu
        ⟨some ("http://127.0.0.1:9050/discovery".toList), none, [], none, false⟩
        (FetchOutcome.ok ⟨200, "plain text body".toList, []⟩)).outcome
      = ReqOutcome.resolved ⟨200, RespBody.text ("plain text body".toList), []⟩ := by
  have h := c4_raw_text (fun _ => (none : Option Unit)) defaultEmu
    ⟨some ("http://127.0.0.1:9050/discovery".toList), none, [], none, false⟩
    ⟨200, "plain text body".toList, []⟩ rfl
  exact ⟨rfl, h.1⟩

/-! ## Claim C7
-/

/-- Claim C7, counterexample: the repository's second
`createCustomAuthRequest` (src/override-auth-example/test.ts lines 26-84)
does not wrap the fetch in a try/catch, so on a network-level failure the
promise is rejected but the descriptor's completion callback is never
invoked — the claim as stated is false for that request function. -/
theorem c7_counterexample :
    ((⟨some ("https://bigquery.googleapis.com/x".toList), none, [], none, true⟩ :
        ReqOpts Unit).hasCallback = true) ∧
    (makeAuthenticatedRequestSimple (fun _ => (none : Option Unit)) defaultEmu
        ⟨some ("https://bigquery.googleapis.com/x".toList), none, [], none, true⟩
        (FetchOutcome.netError ("connect ECONNREFUSED 127.0.0.1:9050".toList))).outcome
      = ReqOutcome.rejected ("connect ECONNREFUSED 127.0.0.1:9050".toList) ∧
    (makeAuthenticatedRequestSimple (fun _ => (none : Option Unit)) defaultEmu
        ⟨some ("https://bigquery.googleapis.com/x".toList), none, [], none, true⟩
        (FetchOutcome.netError ("connect ECONNREFUSED 127.0.0.1:9050".toList))).callbackCalls
      = [] := by
  refine ⟨rfl, by decide, by decide⟩

/-- Claim C7 (amended): on a network-level dispatch failure, the full
adapter (src/unnamed/part_001) rejects the promise with the error and, when
the descriptor carries a callback, invokes it exactly once with that error;
the simplified test-script adapter rejects the promise without invoking the
callback.  Both variants dispatch exactly one fetch — the request is never
retried. -/
theorem c7_no_retry {J : Type} (jp : List Char → Option J) (emu : List Char)
    (opts : ReqOpts J) (msg : List Char) :
    (makeAuthenticatedRequest jp emu opts (FetchOutcome.netError msg)).outcome
      = ReqOutcome.rejected msg ∧
    (makeAuthenticatedRequest jp emu opts (FetchOutcome.netError msg)).fetchCalls.length = 1 ∧
    (opts.hasCallback = true →
      (makeAuthenticatedRequest jp emu opts (FetchOutcome.netError msg)).callbackCalls
        = [⟨some ⟨msg, none⟩, none, none⟩]) ∧
    (makeAuthenticatedRequestSimple jp emu opts (FetchOutcome.netError msg)).outcome
      = ReqOutcome.rejected msg ∧
    (makeAuthenticatedRequestSimple jp emu opts (FetchOutcome.netError msg)).fetchCalls.length
      = 1 ∧
    (makeAuthenticatedRequestSimple jp emu opts (FetchOutcome.netError msg)).callbackCalls
      = [] := by
  refine ⟨rfl, rfl, fun hcb => ?_, rfl, rfl, rfl⟩
  simp [makeAuthenticatedRequest, hcb]

/-- Claim C7, witness: the amended theorem applied to a connection-refused
failure with callback present. -/
theorem c7_witness :
    ((⟨some ("https://bigquery.googleapis.com/x".toList), none, [], none, true⟩ :
        ReqOpts Unit).hasCallback = true) ∧
    (makeAuthenticatedRequest (fun _ => (none : Option Unit)) defaultEmu
        ⟨some ("https://bigquery.googleapis.com/x".toList), none, [], none, true⟩
        (FetchOutcome.netError ("connect ECONNREFUSED 127.0.0.1:9050".toList))).outcome
      = ReqOutcome.rejected ("connect ECONNREFUSED 127.0.0.1:9050".toList) ∧
    (makeAuthenticatedRequest (fun _ => (none : Option Unit)) defaultEmu
        ⟨some ("https://bigquery.googleapis.com/x".toList), none, [], none, true⟩
        (FetchOutcome.netError ("connect ECONNREFUSED 127.0.0.1:9050".toList))).callbackCalls
      = [⟨some ⟨"connect ECONNREFUSED 127.0.0.1:9050".toList, none⟩, none, none⟩] ∧
    (makeAuthenticatedRequest (fun _ => (none : Option Unit)) defaultEmu
        ⟨some ("https://bigquery.googleapis.com/x".toList), none, [], none, true⟩
        (FetchOutcome.netError ("connect ECONNREFUSED 127.0.0.1:9050".toList))).fetchCalls.length
      = 1 := by
  have h := c7_no_retry (fun _ => (none : Option Unit)) defaultEmu
    ⟨some ("https://bigquery.googleapis.com/x".toList), none, [], none, true⟩
    ("connect ECONNREFUSED 127.0.0.1:9050".toList)
  exact ⟨rfl, h.1, h.2.2.1 rfl, h.2.1⟩

/-! ## Claim C9
-/

/-- Claim C9 (confirmed): both adapter variants mutate only the uri field
of the caller's request descriptor — the rewritten emulator uri is visible
to the caller afterwards — while the method, headers, body and callback
fields are unchanged, whatever the fetch outcome. -/
theorem c9_frame {J : Type} (jp : List Char → Option J) (emu : List Char)
    (opts : ReqOpts J) (fr : FetchOutcome) :
    (makeAuthenticatedRequest jp emu opts fr).reqOptsAfter.method = opts.method ∧
    (makeAuthenticatedRequest jp emu opts fr).reqOptsAfter.headers = opts.headers ∧
    (makeAuthenticatedRequest jp emu opts fr).reqOptsAfter.body = opts.body ∧
    (makeAuthenticatedRequest jp emu opts fr).reqOptsAfter.hasCallback = opts.hasCallback ∧
    (makeAuthenticatedRequest jp emu opts fr).reqOptsAfter.uri
      = opts.uri.map (rewriteUri emu) ∧
    (makeAuthenticatedRequestSimple jp emu opts fr).reqOptsAfter
      = (makeAuthenticatedRequest jp emu opts fr).reqOptsAfter := by
  cases fr <;>
    exact ⟨rfl, rfl, rfl, rfl, rfl, rfl⟩

/-! ## Claim C10
-/

lemma objGet_objSet_self (o : List (List Char × List Char)) (k v : List Char) :
    objGet (objSet o k v) k = some v := by
  induction o with
  | nil => simp [objSet, objGet]
  | cons p t ih =>
    by_cases hp : p.1 = k
    · simp [objSet, objGet, hp]
    · simp [objSet, objGet, hp, ih]

lemma objGet_objSet_other (o : List (List Char × List Char)) (k v k' : List Char)
    (hk : k ≠ k') : objGet (objSet o k v) k' = objGet o k' := by
  induction o with
  | nil => simp [objSet, objGet, hk]
  | cons p t ih =>
    by_cases hp : p.1 = k
    · simp [objSet, objGet, hp, hk]
    · simp [objSet, objGet, hp, ih]

lemma objGet_fold_notmem (hs : List (List Char × List Char)) :
    ∀ (acc : List (List Char × List Char)) (k : List Char),
    (∀ kv ∈ hs, kv.1 ≠ k) →
    objGet (hs.foldl (fun acc kv => objSet acc kv.1 kv.2) acc) k = objGet acc k := by
  induction hs with
  | nil => intro acc k _; rfl
  | cons p t ih =>
    intro acc k h
    rw [List.foldl_cons]
    rw [ih _ k fun x hx => h x (List.mem_cons_of_mem _ hx)]
    exact objGet_objSet_other acc p.1 p.2 k (h p (List.mem_cons_self _ _))

lemma objGet_fold_mem (hs : List (List Char × List Char)) :
    ∀ (acc : List (List Char × List Char)),
    (hs.map Prod.fst).Nodup →
    ∀ kv ∈ hs, objGet (hs.foldl (fun acc kv => objSet acc kv.1 kv.2) acc) kv.1 = some kv.2 := by
  induction hs with
  | nil => intro acc _ kv hkv; simp at hkv
  | cons p t ih =>
    intro acc hnd kv hkv
    have hnd' : (p.1 ∉ t.map Prod.fst) ∧ (t.map Prod.fst).Nodup := by
      simpa [List.nodup_cons] using hnd
    rw [List.foldl_cons]
    rcases List.mem_cons.mp hkv with h | h
    · subst h
      have hnot : ∀ x ∈ t, x.1 ≠ kv.1 := by
        intro x hx he
        exact hnd'.1 (he ▸ List.mem_map_of_mem Prod.fst hx)
      rw [objGet_fold_notmem t _ kv.1 hnot]
      exact objGet_objSet_self acc kv.1 kv.2
    · exact ih _ hnd'.2 kv h

/-- Claim C10, counterexample: when the caller supplies the header
`Content-Type: application/json` themselves, the dispatched Content-Type
equals `application/json` even though the caller did supply a Content-Type
header, so "equals application/json exactly when the caller supplied no
Content-Type header" is false as a biconditional. -/
theorem c10_counterexample :
    ¬ ((objGet (mergedHeaders [(ctKey, appJson)]) ctKey = some appJson) ↔
        (∀ kv ∈ ([(ctKey, appJson)] : List (List Char × List Char)), kv.1 ≠ ctKey)) := by
  decide

/-- Claim C10 (amended): the dispatched headers contain every
caller-supplied header with the caller's own value (so caller-supplied
headers take precedence over the default), and the Content-Type header
equals `application/json` whenever the caller supplied no Content-Type
header of their own. -/
theorem c10_headers {J : Type} (opts : ReqOpts J)
    (hnodup : (opts.headers.map Prod.fst).Nodup) :
    (∀ kv ∈ opts.headers, objGet (mergedHeaders opts.headers) kv.1 = some kv.2) ∧
    ((∀ kv ∈ opts.headers, kv.1 ≠ ctKey) →
      objGet (mergedHeaders opts.headers) ctKey = some appJson) := by
  constructor
  · exact objGet_fold_mem opts.headers _ hnodup
  · intro h
    rw [mergedHeaders, objGet_fold_notmem opts.headers _ ctKey h]
    simp [objGet]

/-- Claim C10, witness: the amended theorem applied to a descriptor with
two caller headers, one of which overrides the default content type. -/
theorem c10_witness :
    ((([("Content-Type".toList, "text/plain".toList),
        ("X-Goog-Api-Client".toList, "v1".toList)] :
          List (List Char × List Char)).map Prod.fst).Nodup ∧
      (([("Accept".toList, "*/*".toList)] :
          List (List Char × List Char)).map Prod.fst).Nodup) ∧
    objGet (mergedHeaders [("Content-Type".toList, "text/plain".toList),
        ("X-Goog-Api-Client".toList, "v1".toList)]) ("Content-Type".toList)
      = some ("text/plain".toList) ∧
    objGet (mergedHeaders [("Content-Type".toList, "text/plain".toList),
        ("X-Goog-Api-Client".toList, "v1".toList)]) ("X-Goog-Api-Client".toList)
      = some ("v1".toList) ∧
    objGet (mergedHeaders [("Accept".toList, "*/*".toList)]) ctKey = some appJson := by
  have h1 := c10_headers (J := Unit)
    ⟨none, none, [("Content-Type".toList, "text/plain".toList),
      ("X-Goog-Api-Client".toList, "v1".toList)], none, false⟩ (by decide)
  have h2 := c10_headers (J := Unit)
    ⟨none, none, [("Accept".toList, "*/*".toList)], none, false⟩ (by decide)
  exact ⟨⟨by decide, by decide⟩,
    h1.1 ("Content-Type".toList, "text/plain".toList) (by decide),
    h1.1 ("X-Goog-Api-Client".toList, "v1".toList) (by decide),
    h2.2 (by decide)⟩

/-! ## Claim C5
-/

/-- Claim C5, counterexample: in the simplified script
(src/unnamed/part_001 lines 53-62), a creation failure whose code is 500 —
not the conflict code 409 — is nevertheless recovered because its message
contains `already`, so "this is the only error category that is recovered
(every other error is re-thrown)" is false as stated. -/
theorem c5_counterexample :
    recoverAlready (Res.err ⟨some 500, some ("table already exists".toList)⟩) () = Res.ok () ∧
    (⟨some 500, some ("table already exists".toList)⟩ : BqError).code ≠ some 409 := by
  refine ⟨by decide, by decide⟩

/-- Claim C5 (amended): in every script a creation failure with the
conflict code 409 is caught locally and treated as success, yielding the
resolved reference to the existing resource.  In the env-variable and
override index scripts 409 is the only recovered category — every other
error is re-thrown; the simplified script additionally recovers any
creation error whose message contains `already`, and re-throws the rest. -/
theorem c5_recovery {α : Type} (v existing : α) (e : BqError) :
    recover409 (Res.ok v) existing = Res.ok v ∧
    recoverAlready (Res.ok v) existing = Res.ok v ∧
    (e.code = some 409 →
      recover409 (Res.err e) existing = Res.ok existing ∧
      recoverAlready (Res.err e) existing = Res.ok existing) ∧
    (e.code ≠ some 409 → recover409 (Res.err e) existing = Res.err e) ∧
    (e.code ≠ some 409 → msgHasAlready e = false →
      recoverAlready (Res.err e) existing = Res.err e) := by
  refine ⟨rfl, rfl, fun h409 => ⟨?_, ?_⟩, fun hne => ?_, fun hne hmsg => ?_⟩
  · simp [recover409, h409]
  · simp [recoverAlready, h409]
  · simp [recover409, hne]
  · simp [recoverAlready, hne, hmsg]

/-- Claim C5, witness: the amended theorem applied once to a 409 conflict
(recovered in both handler styles) and once to a 500 failure without
`already` in its message (re-thrown by both). -/
theorem c5_witness :
    ((⟨some 409, some ("Already Exists: Dataset test_dataset".toList)⟩ : BqError).code
        = some 409 ∧
      (⟨some 500, some ("internal error".toList)⟩ : BqError).code ≠ some 409 ∧
      msgHasAlready ⟨some 500, some ("internal error".toList)⟩ = false) ∧
    recover409 (Res.err ⟨some 409, some ("Already Exists: Dataset test_dataset".toList)⟩) ()
      = Res.ok () ∧
    recoverAlready
        (Res.err ⟨some 409, some ("Already Exists: Dataset test_dataset".toList)⟩) ()
      = Res.ok () ∧
    recover409 (Res.err ⟨some 500, some ("internal error".toList)⟩) ()
      = Res.err ⟨some 500, some ("internal error".toList)⟩ ∧
    recoverAlready (Res.err ⟨some 500, some ("internal error".toList)⟩) ()
      = Res.err ⟨some 500, some ("internal error".toList)⟩ := by
  have h1 := c5_recovery () ()
    ⟨some 409, some ("Already Exists: Dataset test_dataset".toList)⟩
  have h2 := c5_recovery () () ⟨some 500, some ("internal error".toList)⟩
  exact ⟨⟨rfl, by decide, by decide⟩,
    (h1.2.2.1 rfl).1, (h1.2.2.1 rfl).2,
    h2.2.2.2.1 (by decide), h2.2.2.2.2 (by decide) (by decide)⟩

/-! ## Claim C6
-/

/-- An environment holding real credentials, used as the counterexample
starting state. -/
def credEnv : Env :=
  ⟨some ("/home/user/gcp-key.json".toList), some ("prod-project".toList),
    some ("prod-project".toList), none, none⟩

/-- Claim C6, counterexample: the two override-auth scripts
(src/override-auth-example/test.ts and the override index script in
src/unnamed/part_001) never delete the credential environment variables, so
with real credentials present and an empty `.env` file (dotenv modelled as
the identity) the variables are still set when the first client call is
issued — the claim as stated is false. -/
theorem c6_counterexample :
    (overrideTestPre id credEnv).googleAppCreds = some ("/home/user/gcp-key.json".toList) ∧
    (overrideIndexPre id credEnv).googleAppCreds = some ("/home/user/gcp-key.json".toList) ∧
    (overrideTestPre id credEnv).googleCloudProject ≠ none ∧
    (overrideTestPre id credEnv).gcloudProject ≠ none := by
  refine ⟨rfl, rfl, by decide, by decide⟩

/-- Claim C6 (amended): the env-variable example script and its test, the
simplified index script and the minimal probe script all unset the
credentials variable and both project-id variables before issuing any
client call, whatever the starting environment and whatever `dotenv`
loaded; the two override-auth scripts do not unset them. -/
theorem c6_clearing (d : Env → Env) (e : Env) :
    (envVarIndexPre d e).googleAppCreds = none ∧
    (envVarIndexPre d e).googleCloudProject = none ∧
    (envVarIndexPre d e).gcloudProject = none ∧
    (envVarTestPre d e).googleAppCreds = none ∧
    (envVarTestPre d e).googleCloudProject = none ∧
    (envVarTestPre d e).gcloudProject = none ∧
    (simplifiedIndexPre d e).googleAppCreds = none ∧
    (simplifiedIndexPre d e).googleCloudProject = none ∧
    (simplifiedIndexPre d e).gcloudProject = none ∧
    (part000Pre e).googleAppCreds = none ∧
    (part000Pre e).googleCloudProject = none ∧
    (part000Pre e).gcloudProject = none :=
  ⟨rfl, rfl, rfl, rfl, rfl, rfl, rfl, rfl, rfl, rfl, rfl, rfl⟩

/-! ## Claim C8
-/

/-- Claim C8, counterexample: the minimal probe script
(src/unnamed/part_000) catches and logs every error of its query attempts
and contains no `process.exit` call, so when its second attempt fails with
a network error the process still exits with code 0, not 1 — the claim as
stated is false for that script. -/
theorem c8_counterexample :
    (part000Run (Res.ok ())
        (Res.err ⟨none, some ("connect ECONNREFUSED 127.0.0.1:9050".toList)⟩)).attempt2Ok
      = false ∧
    (part000Run (Res.ok ())
        (Res.err ⟨none, some ("connect ECONNREFUSED 127.0.0.1:9050".toList)⟩)).exitCode
      = 0 ∧
    (part000Run (Res.ok ())
        (Res.err ⟨none, some ("connect ECONNREFUSED 127.0.0.1:9050".toList)⟩)).exitCode
      ≠ 1 := by
  refine ⟨rfl, rfl, by decide⟩

/-- Claim C8 (amended): the two index scripts, the simplified index script
and the two connection-test scripts exit with code 0 when their sequence
succeeds and with code 1 when an unrecovered error reaches their top
level, and no exit code other than 0 or 1 ever occurs; the minimal probe
script (src/unnamed/part_000) logs its errors and always ends with exit
code 0. -/
theorem c8_exit_codes (cd ct : Res Unit) (rest : List (Res Unit)) (q : Res Bool)
    (a1 a2 : Res Unit) :
    (envVarIndexExit cd ct rest = 0 ∨ envVarIndexExit cd ct rest = 1) ∧
    (overrideIndexExit cd ct rest = 0 ∨ overrideIndexExit cd ct rest = 1) ∧
    (simplifiedIndexExit cd ct rest = 0 ∨ simplifiedIndexExit cd ct rest = 1) ∧
    (envVarTestExit q = 0 ∨ envVarTestExit q = 1) ∧
    (overrideTestExit q = 0 ∨ overrideTestExit q = 1) ∧
    (runSteps (recover409 cd () :: recover409 ct () :: rest) = Res.ok () →
      envVarIndexExit cd ct rest = 0 ∧ overrideIndexExit cd ct rest = 0) ∧
    (∀ e, runSteps (recover409 cd () :: recover409 ct () :: rest) = Res.err e →
      envVarIndexExit cd ct rest = 1 ∧ overrideIndexExit cd ct rest = 1) ∧
    (runSteps (recoverAlready cd () :: recoverAlready ct () :: rest) = Res.ok () →
      simplifiedIndexExit cd ct rest = 0) ∧
    (∀ e, runSteps (recoverAlready cd () :: recoverAlready ct () :: rest) = Res.err e →
      simplifiedIndexExit cd ct rest = 1) ∧
    (q = Res.ok true → envVarTestExit q = 0 ∧ overrideTestExit q = 0) ∧
    (∀ e, q = Res.err e → envVarTestExit q = 1 ∧ overrideTestExit q = 1) ∧
    (part000Run a1 a2).exitCode = 0 := by
  refine ⟨?_, ?_, ?_, ?_, ?_, ?_, ?_, ?_, ?_, ?_, ?_, rfl⟩
  · cases h : runSteps (recover409 cd () :: recover409 ct () :: rest) <;>
      simp [envVarIndexExit, scriptExit, h]
  · cases h : runSteps (recover409 cd () :: recover409 ct () :: rest) <;>
      simp [overrideIndexExit, scriptExit, h]
  · cases h : runSteps (recoverAlready cd () :: recoverAlready ct () :: rest) <;>
      simp [simplifiedIndexExit, scriptExit, h]
  · cases q with
    | ok b => cases b <;> simp [envVarTestExit]
    | err e => simp [envVarTestExit]
  · cases q with
    | ok b => cases b <;> simp [overrideTestExit]
    | err e => simp [overrideTestExit]
  · intro h
    constructor <;> simp [envVarIndexExit, overrideIndexExit, scriptExit, h]
  · intro e h
    constructor <;> simp [envVarIndexExit, overrideIndexExit, scriptExit, h]
  · intro h
    simp [simplifiedIndexExit, scriptExit, h]
  · intro e h
    simp [simplifiedIndexExit, scriptExit, h]
  · intro h
    subst h
    exact ⟨rfl, rfl⟩
  · intro e h
    subst h
    exact ⟨rfl, rfl⟩

/-- Claim C8, witness: the amended theorem applied to a run whose dataset
creation hits a recovered 409 conflict and whose remaining steps succeed
(exit 0), and to a test-script run that rejects (exit 1). -/
theorem c8_witness :
    (runSteps (recover409 (Res.err ⟨some 409, none⟩) ()
        :: recover409 (Res.ok ()) () :: [Res.ok (), Res.ok ()]) = Res.ok () ∧
      (Res.err ⟨none, some ("network".toList)⟩ : Res Bool)
        = Res.err ⟨none, some ("network".toList)⟩) ∧
    envVarIndexExit (Res.err ⟨some 409, none⟩) (Res.ok ()) [Res.ok (), Res.ok ()] = 0 ∧
    overrideIndexExit (Res.err ⟨some 409, none⟩) (Res.ok ()) [Res.ok (), Res.ok ()] = 0 ∧
    envVarTestExit (Res.err ⟨none, some ("network".toList)⟩) = 1 ∧
    overrideTestExit (Res.err ⟨none, some ("network".toList)⟩) = 1 ∧
    (part000Run (Res.ok ()) (Res.ok ())).exitCode = 0 := by
  have h := c8_exit_codes (Res.err ⟨some 409, none⟩) (Res.ok ()) [Res.ok (), Res.ok ()]
    (Res.err ⟨none, some ("network".toList)⟩) (Res.ok ()) (Res.ok ())
  have hok := h.2.2.2.2.2.1 (by decide)
  have herr := h.2.2.2.2.2.2.2.2.2.2.1 ⟨none, some ("network".toList)⟩ rfl
  exact ⟨⟨by decide, rfl⟩, hok.1, hok.2, herr.1, herr.2, h.2.2.2.2.2.2.2.2.2.2.2⟩

end BqEmu
